import Mathlib

/-!
Verification of the React + Spring Boot todo application.

Server side (TaskController.java, Task.java, TaskRepository.java):
the controller delegates directly to a Spring Data `JpaRepository`.
`createTask` saves the request body as-is, `updateTask` overwrites the
body id with the path id and saves, `deleteTask` calls `deleteById`.
The repository collaborator is Spring Data JPA 3 over Hibernate 6 with
`GenerationType.IDENTITY`: `save` persists an id-less entity under a
fresh generated id; for an entity carrying an id it merges, overwriting
the existing record when one matches and otherwise falling through to a
transient save whose insert lets the database generate a fresh id (the
given id is discarded); `deleteById` silently ignores a missing id.

Client side (App.tsx, TaskForm.tsx, TaskItem.tsx, TaskList.tsx):
`addTask`, `toggleTask` and `deleteTask` each issue one fetch and mutate
the local list only in the success continuation; a rejected fetch skips
the continuation (the list is untouched) and the rejection propagates
outward unhandled.  Network outcomes are embedded as `Except`: `.error`
is a rejected fetch, and an unrun `setTasks` is modelled by returning
the input list together with the surfaced error.
-/

namespace Todo

/-- The Task entity: `id` is optional (absent on client drafts and on
POST bodies before the store assigns one), with a title and a completed
flag.  Mirrors `Task.java` and the client's `Task` type. -/
structure Task where
  id : Option Nat
  title : String
  completed : Bool
deriving Repr, DecidableEq

/-- Server-side repository state: the persisted records plus the next
identity value the database would assign. -/
structure TaskStore where
  recs : List Task
  nextId : Nat
deriving Repr, DecidableEq

namespace TaskRepository

/-- `JpaRepository.save`: an entity without an id is persisted under a
fresh generated id; an entity with an id is merged — if a record with
that id exists it is overwritten, but if none does, the merge falls
through to a transient save, and with `GenerationType.IDENTITY` the
insert omits the id column: the database assigns the next identity
value, the given id is discarded, and the returned entity carries the
generated id.  Returns the updated store and the saved entity. -/
def save (store : TaskStore) (task : Task) : TaskStore × Task :=
  match task.id with
  | none =>
      let saved : Task := { task with id := some store.nextId }
      ({ recs := store.recs ++ [saved], nextId := store.nextId + 1 }, saved)
  | some i =>
      if store.recs.any (fun r => r.id == some i) then
        ({ store with
            recs := store.recs.map (fun r => if r.id == some i then task else r) },
         task)
      else
        let saved : Task := { task with id := some store.nextId }
        ({ recs := store.recs ++ [saved], nextId := store.nextId + 1 }, saved)

/-- `JpaRepository.deleteById` (Spring Data JPA 3): removes the record
with the given id when present; a missing id is silently ignored. -/
def deleteById (store : TaskStore) (i : Nat) : TaskStore :=
  { store with recs := store.recs.filter (fun r => r.id != some i) }

/-- `JpaRepository.findAll`: all persisted records. -/
def findAll (store : TaskStore) : List Task :=
  store.recs

end TaskRepository

namespace TaskController

/-- `createTask(@RequestBody Task task) { return repository.save(task); }` —
the body is saved exactly as received: no title validation, and the
body's `completed` value is persisted unchanged. -/
def createTask (store : TaskStore) (task : Task) : TaskStore × Task :=
  TaskRepository.save store task

/-- `updateTask(@PathVariable Long id, @RequestBody Task task)
{ task.setId(id); return repository.save(task); }` — the path id
overwrites whatever id the body carried, then the entity is saved. -/
def updateTask (store : TaskStore) (i : Nat) (task : Task) : TaskStore × Task :=
  TaskRepository.save store { task with id := some i }

/-- `deleteTask(@PathVariable Long id) { repository.deleteById(id); }` -/
def deleteTask (store : TaskStore) (i : Nat) : TaskStore :=
  TaskRepository.deleteById store i

/-- `getAllTasks() { return repository.findAll(); }` -/
def getAllTasks (store : TaskStore) : List Task :=
  TaskRepository.findAll store

end TaskController

namespace App

/-- `addTask` in App.tsx: POSTs the draft; only the success continuation
runs `setTasks([...tasks, newTask])`.  A rejected fetch leaves the list
as it was and the rejection surfaces outward. -/
def addTask (tasks : List Task) (response : Except String Task) :
    List Task × Option String :=
  match response with
  | .error e => (tasks, some e)
  | .ok newTask => (tasks ++ [newTask], none)

/-- The lookup `tasks.find((t) => t.id === id)` in `toggleTask`. -/
def findTask (i : Nat) (tasks : List Task) : Option Task :=
  tasks.find? (fun t => t.id == some i)

/-- The PUT body `{...task, completed: !task.completed}` that
`toggleTask` sends, or `none` when the id is absent locally and the
early `return` fires (no request is issued). -/
def toggleRequestBody (i : Nat) (tasks : List Task) : Option Task :=
  (findTask i tasks).map (fun t => { t with completed := !t.completed })

/-- The success continuation of `toggleTask`:
`setTasks(tasks.map((t) => (t.id === id ? updatedTask : t)))`. -/
def toggleApply (i : Nat) (tasks : List Task) (updatedTask : Task) : List Task :=
  tasks.map (fun t => if t.id == some i then updatedTask else t)

/-- `toggleTask` in App.tsx as one step: locate the task; if absent,
return without any request; otherwise send the flipped snapshot and, on
success, replace the local entry with the server's response. -/
def toggleTask (i : Nat) (tasks : List Task)
    (respond : Task → Except String Task) : List Task × Option String :=
  match toggleRequestBody i tasks with
  | none => (tasks, none)
  | some body =>
      match respond body with
      | .error e => (tasks, some e)
      | .ok updatedTask => (toggleApply i tasks updatedTask, none)

/-- `deleteTask` in App.tsx: issues the DELETE; only the success
continuation runs `setTasks(tasks.filter((t) => t.id !== id))`. -/
def deleteTask (i : Nat) (tasks : List Task) (response : Except String Unit) :
    List Task × Option String :=
  match response with
  | .error e => (tasks, some e)
  | .ok _ => (tasks.filter (fun t => t.id != some i), none)

end App

namespace TaskForm

/-- The blank guard `!title.trim()` in TaskForm.tsx: trimming leading
and trailing whitespace yields the empty string exactly when every
character of the title is whitespace (or the title is empty), which is
the executable form used here. -/
def isBlank (title : String) : Bool :=
  title.toList.all (fun c => c.isWhitespace)

/-- `handleSubmit` in TaskForm.tsx: `if (!title.trim()) return;` then
`onAdd({ title, completed: false })`.  Result is the draft handed to
`onAdd`, or `none` when the blank guard returns early. -/
def handleSubmit (title : String) : Option Task :=
  if isBlank title then none
  else some { id := none, title := title, completed := false }

end TaskForm

namespace TaskItem

/-- The checkbox handler `() => task.id && onToggle(task.id)` in
TaskItem.tsx: the id passed to `onToggle`, or `none` when `task.id` is
falsy (`undefined` or `0`) and the handler body short-circuits. -/
def onToggleArg (task : Task) : Option Nat :=
  match task.id with
  | none => none
  | some i => if i == 0 then none else some i

/-- The button handler `() => task.id && onDelete(task.id)` in
TaskItem.tsx, with the same falsy-id short-circuit. -/
def onDeleteArg (task : Task) : Option Nat :=
  match task.id with
  | none => none
  | some i => if i == 0 then none else some i

end TaskItem

/-- Unfolding lemma for `TaskRepository.save` on an entity that carries
an id: overwrite when a record with that id exists, otherwise a
transient save under the freshly generated id. -/
theorem TaskRepository.save_some (store : TaskStore) (i : Nat)
    (title : String) (c : Bool) :
    TaskRepository.save store ⟨some i, title, c⟩ =
      if store.recs.any (fun r => r.id == some i) then
        ({ store with
            recs := store.recs.map
              (fun r => if r.id == some i then (⟨some i, title, c⟩ : Task) else r) },
         (⟨some i, title, c⟩ : Task))
      else
        ({ recs := store.recs ++ [(⟨some store.nextId, title, c⟩ : Task)],
            nextId := store.nextId + 1 },
         (⟨some store.nextId, title, c⟩ : Task)) :=
  rfl

/-- Claim C1, counterexample: `create("")` does NOT fail with a
`ValidationError` and the collection does NOT stay unchanged — the
controller saves the body without any title check, so on the empty store
an empty-titled record is persisted and returned. -/
theorem claim_C1_counterexample :
    (TaskController.createTask ⟨[], 1⟩ ⟨none, "", false⟩).1.recs
      = [⟨some 1, "", false⟩]
    ∧ (TaskController.createTask ⟨[], 1⟩ ⟨none, "", false⟩).2
      = ⟨some 1, "", false⟩ :=
  ⟨rfl, rfl⟩

/-- Claim C1, amended: a create with an empty or whitespace-only title
does not fail — the server performs no title check and persists the
record as-is, growing the collection by one and returning the saved
task with the blank title; blank titles are screened out only by the
client form (see C9). -/
theorem claim_C1_amended (store : TaskStore) (title : String)
    (_h : TaskForm.isBlank title = true) :
    (TaskController.createTask store ⟨none, title, false⟩).1.recs.length
      = store.recs.length + 1
    ∧ (TaskController.createTask store ⟨none, title, false⟩).2
      = ⟨some store.nextId, title, false⟩ := by
  constructor
  · simp [TaskController.createTask, TaskRepository.save]
  · rfl

/-- Claim C1 witness: the amended statement evaluated at the empty store
and the whitespace-only title. -/
theorem claim_C1_amended_witness :
    (TaskController.createTask ⟨[], 1⟩ ⟨none, "   ", false⟩).1.recs.length = 1
    ∧ (TaskController.createTask ⟨[], 1⟩ ⟨none, "   ", false⟩).2
      = ⟨some 1, "   ", false⟩ :=
  claim_C1_amended ⟨[], 1⟩ "   " (by decide)

/-- Concrete evaluations of the blank guard backing the C1 witness:
both the empty and the whitespace-only title count as blank. -/
theorem isBlank_examples :
    TaskForm.isBlank "" = true ∧ TaskForm.isBlank "   " = true := by
  decide

/-- Claim C2, counterexample: `replace(99, "x", false)` on a store that
never saw id 99 does NOT yield `NotFoundError` and does create a record
— the merge finds no row for 99 and falls through to a transient save,
so the insert runs under the freshly generated id 1, which is also what
the call returns. -/
theorem claim_C2_counterexample :
    (TaskController.updateTask ⟨[], 1⟩ 99 ⟨none, "x", false⟩).1.recs
      = [⟨some 1, "x", false⟩]
    ∧ (TaskController.updateTask ⟨[], 1⟩ 99 ⟨none, "x", false⟩).2
      = ⟨some 1, "x", false⟩ :=
  ⟨rfl, rfl⟩

/-- Claim C2, amended: `replace` on an id with no existing record does
not fail with `NotFoundError` — the merge falls through to a transient
save, inserting a new record under a freshly generated id (not the path
id) and returning that record. -/
theorem claim_C2_amended (store : TaskStore) (i : Nat) (task : Task)
    (h : ∀ r ∈ store.recs, r.id ≠ some i) :
    (TaskController.updateTask store i task).1.recs
      = store.recs ++ [⟨some store.nextId, task.title, task.completed⟩]
    ∧ (TaskController.updateTask store i task).2
      = ⟨some store.nextId, task.title, task.completed⟩ := by
  have hany : store.recs.any (fun r => r.id == some i) = false := by
    simp only [List.any_eq_false]
    intro r hr
    simpa using h r hr
  constructor
  · simp [TaskController.updateTask, TaskRepository.save, hany]
  · simp [TaskController.updateTask, TaskRepository.save, hany]

/-- Claim C2 witness: the amended statement evaluated on the empty store
(identity counter at 1) at path id 99 with body title "x": the inserted
and returned record carries the generated id 1. -/
theorem claim_C2_amended_witness :
    (TaskController.updateTask ⟨[], 1⟩ 99 ⟨none, "x", false⟩).1.recs
      = [] ++ [⟨some 1, "x", false⟩]
    ∧ (TaskController.updateTask ⟨[], 1⟩ 99 ⟨none, "x", false⟩).2
      = ⟨some 1, "x", false⟩ :=
  claim_C2_amended ⟨[], 1⟩ 99 ⟨none, "x", false⟩ (by simp)

/-- Claim C3: when the POST issued by the client's `addTask` fails, the
local list is returned exactly as it was (the success continuation that
appends never runs) and the failure is surfaced, not swallowed. -/
theorem claim_C3_confirmed (tasks : List Task) (e : String) :
    App.addTask tasks (Except.error e) = (tasks, some e) :=
  rfl

/-- Claim C4: `delete(id)` always succeeds (the operation is total: it
never reports a missing id), afterwards no record with that id remains,
and deleting the same id again succeeds and changes nothing. -/
theorem claim_C4_confirmed (store : TaskStore) (i : Nat) :
    (∀ r ∈ (TaskController.deleteTask store i).recs, r.id ≠ some i)
    ∧ TaskController.deleteTask (TaskController.deleteTask store i) i
        = TaskController.deleteTask store i := by
  constructor
  · intro r hr
    have := (List.mem_filter.mp hr).2
    simpa using this
  · show TaskStore.mk ((store.recs.filter _).filter _) store.nextId = _
    congr 1
    rw [List.filter_filter]
    simp

/-- Claim C4 witness: deleting id 1 from a one-record store empties it,
and a second delete of id 1 is again accepted and is a no-op. -/
theorem claim_C4_witness :
    (∀ r ∈ (TaskController.deleteTask ⟨[⟨some 1, "a", false⟩], 2⟩ 1).recs,
       r.id ≠ some 1)
    ∧ TaskController.deleteTask
        (TaskController.deleteTask ⟨[⟨some 1, "a", false⟩], 2⟩ 1) 1
        = TaskController.deleteTask ⟨[⟨some 1, "a", false⟩], 2⟩ 1 :=
  claim_C4_confirmed ⟨[⟨some 1, "a", false⟩], 2⟩ 1

/-- Claim C5, counterexample: the server does NOT override the POSTed
`completed` to false — `createTask` saves the body as received, so a
request with `completed = true` is persisted and returned with
`completed = true`. -/
theorem claim_C5_counterexample :
    (TaskController.createTask ⟨[], 1⟩ ⟨none, "a", true⟩).2.completed = true
    ∧ (TaskController.createTask ⟨[], 1⟩ ⟨none, "a", true⟩).1.recs
      = [⟨some 1, "a", true⟩] :=
  ⟨rfl, rfl⟩

/-- Claim C5, amended: the server persists and returns the `completed`
value of the request body unchanged; created tasks start incomplete only
because the client form always submits `completed = false`. -/
theorem claim_C5_amended (store : TaskStore) (title : String) (c : Bool) :
    (TaskController.createTask store ⟨none, title, c⟩).2.completed = c
    ∧ (TaskController.createTask store ⟨none, title, c⟩).1.recs
        = store.recs ++ [⟨some store.nextId, title, c⟩]
    ∧ ∀ t, TaskForm.handleSubmit title = some t → t.completed = false := by
  refine ⟨rfl, rfl, ?_⟩
  intro t ht
  unfold TaskForm.handleSubmit at ht
  split at ht
  · exact absurd ht (by simp)
  · cases ht
    rfl

/-- Claim C5 witness: the amended statement evaluated on the empty store
with title "a" and `completed = true`. -/
theorem claim_C5_amended_witness :
    (TaskController.createTask ⟨[], 1⟩ ⟨none, "a", true⟩).2.completed = true
    ∧ (TaskController.createTask ⟨[], 1⟩ ⟨none, "a", true⟩).1.recs
        = [] ++ [⟨some 1, "a", true⟩]
    ∧ ∀ t, TaskForm.handleSubmit "a" = some t → t.completed = false :=
  claim_C5_amended ⟨[], 1⟩ "a" true

/-- Claim C6: when the DELETE issued by the client's `deleteTask` fails,
the local list is unchanged (the entry remains) and the failure is
surfaced; only on success is the list filtered, after which no entry
with the deleted id remains. -/
theorem claim_C6_confirmed (i : Nat) (tasks : List Task) (e : String) :
    App.deleteTask i tasks (Except.error e) = (tasks, some e)
    ∧ ∀ t ∈ (App.deleteTask i tasks (Except.ok ())).1, t.id ≠ some i := by
  refine ⟨rfl, ?_⟩
  intro t ht
  have := (List.mem_filter.mp ht).2
  simpa using this

/-- Claim C6 witness: a failed delete of id 1 leaves the one-entry list
intact and surfaces the error; a successful one removes the entry. -/
theorem claim_C6_witness :
    App.deleteTask 1 [⟨some 1, "a", false⟩] (Except.error "down")
      = ([⟨some 1, "a", false⟩], some "down")
    ∧ ∀ t ∈ (App.deleteTask 1 [⟨some 1, "a", false⟩] (Except.ok ())).1,
        t.id ≠ some 1 :=
  claim_C6_confirmed 1 [⟨some 1, "a", false⟩] "down"

/-- Claim C7: if no local task carries the id, `toggleTask` is a no-op
issuing no request (the result is independent of the server); if the
lookup finds the local snapshot `t`, the PUT body is exactly `t` with
only `completed` flipped (id and title unchanged); and the success
continuation replaces the entry at that id wholesale with the server's
returned task, leaving every other position untouched. -/
theorem claim_C7_confirmed (i : Nat) (tasks : List Task) :
    ((∀ t ∈ tasks, t.id ≠ some i) →
       ∀ respond, App.toggleTask i tasks respond = (tasks, none))
    ∧ (∀ t, App.findTask i tasks = some t →
        App.toggleRequestBody i tasks = some ⟨t.id, t.title, !t.completed⟩
        ∧ t ∈ tasks ∧ t.id = some i)
    ∧ (∀ (u : Task) (j : Nat), (App.toggleApply i tasks u)[j]?
        = (tasks[j]?).map (fun t => if t.id == some i then u else t)) := by
  refine ⟨?_, ?_, ?_⟩
  · intro h respond
    have hfind : App.findTask i tasks = none := by
      simp only [App.findTask, List.find?_eq_none]
      intro t ht
      simpa using h t ht
    have hbody : App.toggleRequestBody i tasks = none := by
      simp [App.toggleRequestBody, hfind]
    simp [App.toggleTask, hbody]
  · intro t ht
    have hfind : tasks.find? (fun t => t.id == some i) = some t := ht
    have hmem : t ∈ tasks := List.mem_of_find?_eq_some hfind
    have hp := List.find?_some hfind
    refine ⟨?_, hmem, by simpa using hp⟩
    simp [App.toggleRequestBody, ht]
  · intro u j
    simp [App.toggleApply]

/-- Claim C7 witness: toggling an absent id 2 over a one-entry list is a
no-op for any server, and toggling the present id 1 sends the snapshot
with `completed` flipped. -/
theorem claim_C7_witness :
    App.toggleTask 2 [⟨some 1, "a", false⟩] (fun b => Except.ok b)
      = ([⟨some 1, "a", false⟩], none)
    ∧ App.toggleRequestBody 1 [⟨some 1, "a", false⟩]
      = some ⟨some 1, "a", true⟩ := by
  constructor
  · exact (claim_C7_confirmed 2 [⟨some 1, "a", false⟩]).1 (by decide) _
  · exact ((claim_C7_confirmed 1 [⟨some 1, "a", false⟩]).2.1
      ⟨some 1, "a", false⟩ (by decide)).1

/-- Claim C8, counterexample: a PUT whose path id has no record does
NOT return a task carrying the path id — on the empty store (identity
counter at 1), a PUT to path id 99 with a body claiming id 3 inserts
and returns the freshly generated id 1, not 99 (the body id 3 is still
discarded). -/
theorem claim_C8_counterexample :
    (TaskController.updateTask ⟨[], 1⟩ 99 ⟨some 3, "new", true⟩).2
      = ⟨some 1, "new", true⟩
    ∧ (TaskController.updateTask ⟨[], 1⟩ 99 ⟨some 3, "new", true⟩).2.id
      ≠ some 99 :=
  ⟨rfl, by decide⟩

/-- Claim C8, amended: the path id overwrites any id the body carried
before the save, so the outcome never depends on the body id; and when
a record with the path id exists, the returned task is the body stamped
with the path id and every record of the new store is either an
untouched old record or that stamped body.  When no record with the
path id exists, the insert instead runs under a freshly generated id
(see the counterexample). -/
theorem claim_C8_amended (store : TaskStore) (i : Nat) (task : Task) :
    (∀ j : Option Nat,
        TaskController.updateTask store i { task with id := j }
          = TaskController.updateTask store i task)
    ∧ (store.recs.any (fun r => r.id == some i) = true →
        (TaskController.updateTask store i task).2 = { task with id := some i }
        ∧ ∀ r ∈ (TaskController.updateTask store i task).1.recs,
            r ∈ store.recs ∨ r = { task with id := some i }) := by
  refine ⟨fun j => rfl, fun hc => ⟨?_, ?_⟩⟩
  · show (TaskRepository.save store ⟨some i, task.title, task.completed⟩).2
        = ({ task with id := some i } : Task)
    rw [TaskRepository.save_some, if_pos hc]
  · intro r hr
    have hr2 : r ∈ (TaskRepository.save store
        ⟨some i, task.title, task.completed⟩).1.recs := hr
    rw [TaskRepository.save_some, if_pos hc] at hr2
    simp only [List.mem_map] at hr2
    obtain ⟨a, ha, hra⟩ := hr2
    by_cases hai : (a.id == some i) = true
    · right
      rw [← hra, if_pos hai]
    · left
      rw [← hra, if_neg hai]
      exact ha

/-- Claim C8 witness: with a record for id 5 present, a PUT to path id
5 gives the same result whether the body claims id 3 or id 7, the
returned task carries id 5, and the store holds only old records or the
stamped body. -/
theorem claim_C8_witness :
    TaskController.updateTask ⟨[⟨some 5, "old", false⟩], 6⟩ 5
        ⟨some 3, "new", true⟩
      = TaskController.updateTask ⟨[⟨some 5, "old", false⟩], 6⟩ 5
        ⟨some 7, "new", true⟩
    ∧ (TaskController.updateTask ⟨[⟨some 5, "old", false⟩], 6⟩ 5
        ⟨some 3, "new", true⟩).2 = ⟨some 5, "new", true⟩
    ∧ ∀ r ∈ (TaskController.updateTask ⟨[⟨some 5, "old", false⟩], 6⟩ 5
        ⟨some 3, "new", true⟩).1.recs,
        r ∈ [⟨some 5, "old", false⟩] ∨ r = (⟨some 5, "new", true⟩ : Task) := by
  refine ⟨?_, ?_, ?_⟩
  · exact (claim_C8_amended ⟨[⟨some 5, "old", false⟩], 6⟩ 5
      ⟨some 7, "new", true⟩).1 (some 3)
  · exact ((claim_C8_amended ⟨[⟨some 5, "old", false⟩], 6⟩ 5
      ⟨some 3, "new", true⟩).2 (by decide)).1
  · exact ((claim_C8_amended ⟨[⟨some 5, "old", false⟩], 6⟩ 5
      ⟨some 3, "new", true⟩).2 (by decide)).2

/-- Claim C9: the form's submit handler refuses an empty or
whitespace-only title — `onAdd` is never called, so no request is issued
and the local list cannot change — and for a non-blank title it hands
`onAdd` a draft with exactly that title, no id, and `completed = false`. -/
theorem claim_C9_confirmed (title : String) :
    (TaskForm.isBlank title = true → TaskForm.handleSubmit title = none)
    ∧ (TaskForm.isBlank title = false →
        TaskForm.handleSubmit title = some ⟨none, title, false⟩) := by
  constructor
  · intro h
    simp [TaskForm.handleSubmit, h]
  · intro h
    simp [TaskForm.handleSubmit, h]

/-- Claim C9 witness: the whitespace-only title is rejected locally and
"buy milk" is submitted as an incomplete draft. -/
theorem claim_C9_witness :
    TaskForm.handleSubmit "   " = none
    ∧ TaskForm.handleSubmit "buy milk" = some ⟨none, "buy milk", false⟩ :=
  ⟨(claim_C9_confirmed "   ").1 (by decide),
   (claim_C9_confirmed "buy milk").2 (by decide)⟩

/-- Claim C10: a rendered task whose id is absent or falsy (`undefined`
or `0`) never reaches the `onToggle`/`onDelete` callbacks — both
handlers short-circuit on `task.id &&` and pass no id. -/
theorem claim_C10_confirmed (task : Task)
    (h : task.id = none ∨ task.id = some 0) :
    TaskItem.onToggleArg task = none ∧ TaskItem.onDeleteArg task = none := by
  rcases h with h | h
  · simp [TaskItem.onToggleArg, TaskItem.onDeleteArg, h]
  · simp [TaskItem.onToggleArg, TaskItem.onDeleteArg, h]

/-- Claim C10 witness: a draft (no id) triggers neither callback. -/
theorem claim_C10_witness :
    TaskItem.onToggleArg ⟨none, "draft", false⟩ = none
    ∧ TaskItem.onDeleteArg ⟨none, "draft", false⟩ = none :=
  claim_C10_confirmed ⟨none, "draft", false⟩ (Or.inl rfl)

end Todo
